import Mathlib

/-!
Shallow embedding of `src/main.py` (ESP32 vision / recording server).

The program keeps module-level globals (`latest_result`, `latest_distance`,
`last_detect_time`, `recording`, `video_writer`, `recording_filename`,
lines 27-32) that are mutated by the Flask route handlers
(`start_record`, `stop_record`, `distance`, `label`), by the frame
ingestion loop `generate_frames`, by the background distance poller
`update_distance`, and by fire-and-forget `detect_labels` tasks.

We model that global state as an explicit `ServerState` record threaded
through pure functions, one per Python function.  External effects are
modelled as parameters:
* the wall clock `time.time()` is a rational-number argument (each loop
  iteration of `generate_frames` calls it twice, once for the admission
  check on line 99 and once for the stamp on line 101, so an iteration
  carries two timestamps);
* network calls (`requests.post` to Vision / Translate, `requests.get`
  to the distance endpoint) are `Except` / outcome arguments;
* `cv2.VideoWriter` is a record holding the target filename, whether the
  sink opened, and the list of frames written to it; releasing a writer
  and spawning an upload thread are recorded in ghost lists `released`
  and `uploads` so that theorems can talk about them.
-/

/-- A decoded video frame (`frame` from `cap.read()`); contents abstract. -/
structure Frame where
  bytes : List Nat
deriving Repr, DecidableEq

/-- Model of a `cv2.VideoWriter`: the file it writes, whether it opened
successfully (`isOpened()`, never consulted by the source), and the frames
written so far (the local file's contents). -/
structure VideoWriter where
  filename : String
  opened : Bool
  frames : List Frame
deriving Repr, DecidableEq

/-- An upload submission: `upload_to_gcs(local_path, gcs_path)` spawned on a
thread by `stop_record` (lines 142-146). -/
structure UploadTask where
  localPath : String
  remoteKey : String
deriving Repr, DecidableEq

/-- The dict written to `latest_result` by `detect_labels` (line 72). -/
structure LabelResult where
  label_en : String
  label_ko : String
deriving Repr, DecidableEq

/-- The module-level mutable globals of `main.py` (lines 27-32), plus ghost
history fields `uploads` (upload threads spawned), `released` (writers on
which `release()` was called) and `detections` (admission times at which a
`detect_labels` thread was started by `generate_frames`). -/
structure ServerState where
  latest_result : Option LabelResult
  latest_distance : Option Int
  last_detect_time : ℚ
  recording : Bool
  video_writer : Option VideoWriter
  recording_filename : String
  uploads : List UploadTask
  released : List VideoWriter
  detections : List ℚ
deriving Repr, DecidableEq

/-- Initial values of the globals (lines 27-32): `latest_result = {}`,
`latest_distance = None`, `last_detect_time = 0`, `recording = False`,
`video_writer = None`, `recording_filename = ""`. -/
def initState : ServerState :=
  { latest_result := none
    latest_distance := none
    last_detect_time := 0
    recording := false
    video_writer := none
    recording_filename := ""
    uploads := []
    released := []
    detections := [] }

/-- `f"record_{timestamp}.mp4"` (line 127). -/
def mkFilename (ts : String) : String := "record_" ++ ts ++ ".mp4"

/-- `start_record` (lines 123-132): builds a fresh timestamped filename,
creates a new `cv2.VideoWriter` (overwriting the global without any check or
release of a previous one), sets `recording = True` and returns the success
string.  `ts` is the result of `time.strftime("%Y%m%d_%H%M%S")`; `sinkOpens`
is whether the new writer actually opened (the source never checks it). -/
def start_record (ts : String) (sinkOpens : Bool) (s : ServerState) :
    String × ServerState :=
  let fn := mkFilename ts
  ("녹화 시작",
    { s with
      recording_filename := fn
      video_writer := some { filename := fn, opened := sinkOpens, frames := [] }
      recording := true })

/-- `stop_record` (lines 134-147): sets `recording = False`; if the global
writer is non-`None`, releases it, clears the global, and spawns an upload
thread for `(recording_filename, "recordings/" + recording_filename)`; the
return string is the same in both branches. -/
def stop_record (s : ServerState) : String × ServerState :=
  match s.video_writer with
  | some w =>
      ("녹화 종료",
        { s with
          recording := false
          video_writer := none
          released := s.released ++ [w]
          uploads := s.uploads ++
            [{ localPath := s.recording_filename
               remoteKey := "recordings/" ++ s.recording_filename }] })
  | none => ("녹화 종료", { s with recording := false })

/-- Lines 97-98 of `generate_frames`:
`if recording and video_writer: video_writer.write(frame)`.
(A `cv2.VideoWriter` object is always truthy, so the Python condition is
exactly `recording ∧ video_writer is not None`.) -/
def recordPart (s : ServerState) (fr : Frame) : ServerState :=
  match s.video_writer with
  | some w =>
      if s.recording then
        { s with video_writer := some { w with frames := w.frames ++ [fr] } }
      else s
  | none => s

/-- Lines 99-101 of `generate_frames`:
`if time.time() - last_detect_time > 1:` start a `detect_labels` thread and
set `last_detect_time = time.time()`.  `t1` is the first `time.time()` call
(admission check, and the moment the detection thread is launched), `t2` the
second one (the stamp); the stamp is written synchronously in the same
iteration. -/
def throttlePart (s : ServerState) (t1 t2 : ℚ) : ServerState :=
  if 1 < t1 - s.last_detect_time then
    { s with detections := s.detections ++ [t1], last_detect_time := t2 }
  else s

/-- One iteration of the `while True` loop of `generate_frames`
(lines 91-103): `fr = none` models a failed `cap.read()` (the iteration is
skipped, lines 93-96); otherwise the frame is offered to the recording sink
and then to the detection throttle. -/
structure Iter where
  fr : Option Frame
  t1 : ℚ
  t2 : ℚ
deriving DecidableEq

/-- The body of one `generate_frames` iteration. -/
def frameStep (s : ServerState) (it : Iter) : ServerState :=
  match it.fr with
  | none => s
  | some fr => throttlePart (recordPart s fr) it.t1 it.t2

/-- A run of the frame-ingestion loop over a list of iterations. -/
def runLoop (s : ServerState) (l : List Iter) : ServerState :=
  l.foldl frameStep s

/-- Module-level RTSP setup (lines 15-18): `cap = cv2.VideoCapture(RTSP_URL)`
followed by `if not cap.isOpened(): raise RuntimeError(...)`.  A raise at
module level aborts process start, so init either fails or yields the
initial global state. -/
def moduleInit (capOpens : Bool) : Except String ServerState :=
  if capOpens then Except.ok initState
  else Except.error "RTSP stream connection failed"

/-- One entry of `localizedObjectAnnotations` (only its `name` field is
read, line 69). -/
structure ObjAnn where
  name : String
deriving Repr, DecidableEq

/-- One entry of `labelAnnotations` (only its `description` field is read,
line 69). -/
structure LabelAnn where
  description : String
deriving Repr, DecidableEq

/-- The parsed first element of the Vision response (lines 66-68):
`response.get("localizedObjectAnnotations", [])` and
`response.get("labelAnnotations", [])` — the `.get` defaults mean missing
keys appear here as empty lists. -/
structure VisionResponse where
  localizedObjectAnnotations : List ObjAnn
  labelAnnotations : List LabelAnn
deriving Repr, DecidableEq

/-- Line 69:
`best = objects[0]['name'] if objects else labels[0]['description'] if labels else "알 수 없음"`. -/
def bestLabel (r : VisionResponse) : String :=
  match r.localizedObjectAnnotations with
  | o :: _ => o.name
  | [] =>
      match r.labelAnnotations with
      | l :: _ => l.description
      | [] => "알 수 없음"

/-- `detect_labels` (lines 54-74), as a function of the outcomes of its two
network calls.  `visionCall` is the Vision POST together with the response
parsing (lines 57-68; any exception up to and including parsing lands in the
`except` handler); `translateCall` maps the chosen label to the outcome of
the Translate POST plus extraction (lines 70-71).  The single Python
assignment `latest_result = {"label_en": best, "label_ko": translated}`
(line 72) runs only after both calls succeeded; any raise leaves
`latest_result` untouched (lines 73-74). -/
def detect_labels (visionCall : Except String VisionResponse)
    (translateCall : String → Except String String)
    (latest : Option LabelResult) : Option LabelResult :=
  match visionCall with
  | Except.error _ => latest
  | Except.ok resp =>
      match translateCall (bestLabel resp) with
      | Except.error _ => latest
      | Except.ok tr => some { label_en := bestLabel resp, label_ko := tr }

/-- Outcome of one `requests.get(DISTANCE_URL, timeout=1)` (line 81):
either a response with a status code and body text, or a raised exception
(connection error, timeout, ...). -/
inductive ReadOutcome where
  | ok (status : Nat) (text : String)
  | exn
deriving Repr, DecidableEq

/-- Python `str.strip()`: drop whitespace from both ends. -/
def stripChars (l : List Char) : List Char :=
  ((l.dropWhile Char.isWhitespace).reverse.dropWhile Char.isWhitespace).reverse

/-- Value of a digit string, most significant first. -/
def digitsToNat (l : List Char) : Nat :=
  l.foldl (fun a c => a * 10 + (c.toNat - 48)) 0

/-- Python `int(text.strip())` (line 83): whitespace is stripped, then an
optional sign followed by a non-empty digit string is accepted; `none`
models a raised `ValueError` (caught by the bare `except` on line 84). -/
def parsePyInt (text : String) : Option Int :=
  let l := stripChars text.data
  match l with
  | '-' :: rest =>
      if rest ≠ [] ∧ rest.all Char.isDigit then some (-(digitsToNat rest : Int))
      else none
  | '+' :: rest =>
      if rest ≠ [] ∧ rest.all Char.isDigit then some ((digitsToNat rest : Int))
      else none
  | _ =>
      if l ≠ [] ∧ l.all Char.isDigit then some ((digitsToNat l : Int))
      else none

/-- One iteration of the `update_distance` loop body (lines 80-85), as a
function of the previous `latest_distance` and the read outcome: on a raise
anywhere in the `try` block, `latest_distance = None`; on a 200 response
whose body parses, the numeric value; on a non-200 response (no raise) the
`if` is skipped and the previous value is kept. -/
def update_distance_tick (latest : Option Int) (r : ReadOutcome) : Option Int :=
  match r with
  | ReadOutcome.exn => none
  | ReadOutcome.ok status text =>
      if status = 200 then
        match parsePyInt text with
        | some n => some n
        | none => none
      else latest

/-- The JSON value placed at key `distance_cm` by the `/distance` handler. -/
inductive DistVal where
  | num (n : Int)
  | na
deriving Repr, DecidableEq

/-- The `/distance` route (lines 114-117):
`latest_distance if latest_distance is not None else "N/A"`. -/
def distanceRoute (latest : Option Int) : DistVal :=
  match latest with
  | some n => DistVal.num n
  | none => DistVal.na

/-- Shape of `time.strftime("%Y%m%d_%H%M%S")` output: eight digits, an
underscore, six digits. -/
def tsShape (l : List Char) : Bool :=
  l.length = 15 && (l.take 8).all Char.isDigit &&
    (l.drop 8).take 1 == ['_'] && ((l.drop 9).all Char.isDigit)

/-- `tsShape` on a string. -/
def tsPattern (ts : String) : Bool := tsShape ts.data

/-- Checks that a filename matches `record_<YYYYMMDD_HHMMSS>.mp4`. -/
def recordFilenamePattern (fn : String) : Bool :=
  (fn.data.take 7 == "record_".data) && tsShape ((fn.data.drop 7).take 15) &&
    ((fn.data.drop 7).drop 15 == ".mp4".data)

/-- An externally triggered event on the server: a `GET /record/start`, a
`GET /record/stop`, or one iteration of the frame-ingestion loop. -/
inductive Op where
  | start (ts : String) (sinkOpens : Bool)
  | stop
  | iter (it : Iter)
deriving DecidableEq

/-- Effect of one event on the global state. -/
def applyOp (s : ServerState) : Op → ServerState
  | Op.start ts b => (start_record ts b s).2
  | Op.stop => (stop_record s).2
  | Op.iter it => frameStep s it

/-- Effect of a sequence of events. -/
def runOps (s : ServerState) (ops : List Op) : ServerState :=
  ops.foldl applyOp s

/-- `fn` appears nowhere in the state: it is not the current recording
filename, not the filename of the current writer, and occurs neither among
released writers nor among upload submissions. -/
def avoids (fn : String) (s : ServerState) : Prop :=
  s.recording_filename ≠ fn ∧
  (∀ w ∈ s.released, w.filename ≠ fn) ∧
  (∀ u ∈ s.uploads, u.localPath ≠ fn) ∧
  (∀ w, s.video_writer = some w → w.filename ≠ fn)

lemma recordPart_fields (s : ServerState) (fr : Frame) :
    (recordPart s fr).last_detect_time = s.last_detect_time ∧
    (recordPart s fr).detections = s.detections ∧
    (recordPart s fr).uploads = s.uploads ∧
    (recordPart s fr).released = s.released ∧
    (recordPart s fr).recording = s.recording ∧
    (recordPart s fr).recording_filename = s.recording_filename := by
  unfold recordPart
  rcases s.video_writer with _ | w
  · simp
  · simp only
    split <;> simp

lemma throttlePart_fields (s : ServerState) (t1 t2 : ℚ) :
    (throttlePart s t1 t2).video_writer = s.video_writer ∧
    (throttlePart s t1 t2).uploads = s.uploads ∧
    (throttlePart s t1 t2).released = s.released ∧
    (throttlePart s t1 t2).recording = s.recording ∧
    (throttlePart s t1 t2).recording_filename = s.recording_filename := by
  unfold throttlePart
  split <;> simp

lemma recordPart_writer (s : ServerState) (fr : Frame) :
    (recordPart s fr).video_writer = s.video_writer ∨
    ∃ w, s.video_writer = some w ∧
      (recordPart s fr).video_writer =
        some { filename := w.filename, opened := w.opened,
               frames := w.frames ++ [fr] } := by
  unfold recordPart
  rcases hw : s.video_writer with _ | w
  · left; simp [hw]
  · by_cases hr : s.recording = true
    · right; exact ⟨w, rfl, by simp [hw, hr]⟩
    · left; simp [hw, hr]

lemma recordPart_writer_filename (s : ServerState) (fr : Frame) (w2 : VideoWriter)
    (h : (recordPart s fr).video_writer = some w2) :
    ∃ w1, s.video_writer = some w1 ∧ w2.filename = w1.filename := by
  rcases recordPart_writer s fr with heq | ⟨w, hw, heq⟩
  · exact ⟨w2, by rw [← heq, h], rfl⟩
  · rw [heq] at h
    refine ⟨w, hw, ?_⟩
    cases h
    rfl

lemma frameStep_fields (s : ServerState) (it : Iter) :
    (frameStep s it).uploads = s.uploads ∧
    (frameStep s it).released = s.released ∧
    (frameStep s it).recording = s.recording ∧
    (frameStep s it).recording_filename = s.recording_filename := by
  rcases it with ⟨fr, t1, t2⟩
  cases fr with
  | none => exact ⟨rfl, rfl, rfl, rfl⟩
  | some f =>
      show (throttlePart (recordPart s f) t1 t2).uploads = _ ∧ _
      obtain ⟨_, _, hu, hr, hrec, hfn⟩ := recordPart_fields s f
      obtain ⟨_, hu2, hr2, hrec2, hfn2⟩ := throttlePart_fields (recordPart s f) t1 t2
      exact ⟨hu2.trans hu, hr2.trans hr, hrec2.trans hrec, hfn2.trans hfn⟩

lemma frameStep_writer_filename (s : ServerState) (it : Iter) (w2 : VideoWriter)
    (h : (frameStep s it).video_writer = some w2) :
    ∃ w1, s.video_writer = some w1 ∧ w2.filename = w1.filename := by
  rcases it with ⟨fr, t1, t2⟩
  cases fr with
  | none => exact ⟨w2, h, rfl⟩
  | some f =>
      have hw : (throttlePart (recordPart s f) t1 t2).video_writer =
          (recordPart s f).video_writer := (throttlePart_fields _ t1 t2).1
      have h2 : (recordPart s f).video_writer = some w2 := by
        rw [← hw]; exact h
      exact recordPart_writer_filename s f w2 h2

lemma string_data_append (s t : String) : (s ++ t).data = s.data ++ t.data := rfl

lemma mkFilename_inj {a b : String} (h : mkFilename a = mkFilename b) : a = b := by
  have hd : ("record_".data ++ a.data) ++ ".mp4".data =
      ("record_".data ++ b.data) ++ ".mp4".data := congrArg String.data h
  have h3 := List.append_cancel_left (List.append_cancel_right hd)
  cases a; cases b; exact congrArg String.mk h3

lemma mkFilename_pattern (ts : String) (h : tsPattern ts = true) :
    recordFilenamePattern (mkFilename ts) = true := by
  have hlen : ts.data.length = 15 := by
    unfold tsPattern tsShape at h
    simp only [Bool.and_eq_true, decide_eq_true_eq] at h
    exact h.1.1.1
  have hdata : (mkFilename ts).data =
      "record_".data ++ (ts.data ++ ".mp4".data) := by
    show (("record_" ++ ts) ++ ".mp4").data = _
    rw [string_data_append, string_data_append, List.append_assoc]
  have h7 : ("record_".data).length = 7 := rfl
  unfold recordFilenamePattern
  rw [hdata,
    show ("record_".data ++ (ts.data ++ ".mp4".data)).take 7 = "record_".data by
      rw [← h7]; exact List.take_left _ _,
    show ("record_".data ++ (ts.data ++ ".mp4".data)).drop 7 =
        ts.data ++ ".mp4".data by
      rw [← h7]; exact List.drop_left _ _,
    show (ts.data ++ ".mp4".data).take 15 = ts.data by
      rw [← hlen]; exact List.take_left _ _,
    show (ts.data ++ ".mp4".data).drop 15 = ".mp4".data by
      rw [← hlen]; exact List.drop_left _ _]
  unfold tsPattern at h
  simp [h]

lemma runLoop_cons (s : ServerState) (it : Iter) (l : List Iter) :
    runLoop s (it :: l) = runLoop (frameStep s it) l := rfl

/-- Detections appended by a run of the ingestion loop: every admission
time exceeds the starting stamp by more than the one-second window, and
successive admissions are more than one second apart (the stamp of line 101
is taken after the admission time of line 99, so the gap between two
admitted launch times is strictly larger than the window). -/
lemma runLoop_detections (l : List Iter) :
    ∀ s : ServerState, (∀ it ∈ l, it.t1 ≤ it.t2) →
      ∃ new : List ℚ,
        (runLoop s l).detections = s.detections ++ new ∧
        (∀ t ∈ new, s.last_detect_time + 1 < t) ∧
        new.Pairwise (fun x y => x + 1 < y) := by
  induction l with
  | nil => exact fun s _ => ⟨[], by simp [runLoop], by simp, List.Pairwise.nil⟩
  | cons it l ih =>
      intro s h
      have htail : ∀ it2 ∈ l, it2.t1 ≤ it2.t2 :=
        fun it2 hm => h it2 (List.mem_cons_of_mem _ hm)
      rcases it with ⟨fr, t1, t2⟩
      have ht12 : t1 ≤ t2 := h ⟨fr, t1, t2⟩ (List.mem_cons_self _ _)
      cases fr with
      | none => exact ih s htail
      | some f =>
          rw [runLoop_cons]
          have hstep : frameStep s ⟨some f, t1, t2⟩ =
              throttlePart (recordPart s f) t1 t2 := rfl
          obtain ⟨h1l, h1d, -, -, -, -⟩ := recordPart_fields s f
          by_cases hadm : 1 < t1 - (recordPart s f).last_detect_time
          · have hthr : throttlePart (recordPart s f) t1 t2 =
                { recordPart s f with
                  detections := (recordPart s f).detections ++ [t1]
                  last_detect_time := t2 } := by
              unfold throttlePart
              rw [if_pos hadm]
            obtain ⟨new2, heq2, hgt2, hpw2⟩ :=
              ih ({ recordPart s f with
                    detections := (recordPart s f).detections ++ [t1]
                    last_detect_time := t2 }) htail
            refine ⟨t1 :: new2, ?_, ?_, ?_⟩
            · rw [hstep, hthr, heq2]
              simp [h1d]
            · intro t ht
              rcases List.mem_cons.mp ht with rfl | ht2
              · rw [h1l] at hadm; linarith
              · have := hgt2 t ht2
                simp only at this
                rw [h1l] at hadm
                linarith
            · refine List.pairwise_cons.mpr ⟨?_, hpw2⟩
              intro t ht2
              have := hgt2 t ht2
              simp only at this
              linarith
          · have hthr : throttlePart (recordPart s f) t1 t2 = recordPart s f := by
              unfold throttlePart
              rw [if_neg hadm]
            obtain ⟨new2, heq2, hgt2, hpw2⟩ := ih (recordPart s f) htail
            refine ⟨new2, ?_, ?_, ?_⟩
            · rw [hstep, hthr, heq2, h1d]
            · intro t ht
              have := hgt2 t ht
              rw [h1l] at this
              exact this
            · exact hpw2

lemma start_record_avoids {fn : String} (ts : String) (b : Bool) (s : ServerState)
    (h : avoids fn s) (hts : mkFilename ts ≠ fn) :
    avoids fn (start_record ts b s).2 := by
  obtain ⟨-, h2, h3, -⟩ := h
  refine ⟨hts, h2, h3, ?_⟩
  intro w hw
  have hww : (start_record ts b s).2.video_writer =
      some { filename := mkFilename ts, opened := b, frames := [] } := rfl
  rw [hww] at hw
  cases hw
  exact hts

lemma stop_record_avoids {fn : String} (s : ServerState) (h : avoids fn s) :
    avoids fn (stop_record s).2 := by
  obtain ⟨h1, h2, h3, h4⟩ := h
  unfold stop_record
  split
  case _ w heq =>
      refine ⟨h1, ?_, ?_, by simp⟩
      · intro w2 hw2
        rcases List.mem_append.mp hw2 with hmem | hmem
        · exact h2 w2 hmem
        · rw [List.mem_singleton.mp hmem]
          exact h4 w heq
      · intro u hu
        rcases List.mem_append.mp hu with hmem | hmem
        · exact h3 u hmem
        · rw [List.mem_singleton.mp hmem]
          exact h1
  case _ heq =>
      refine ⟨h1, h2, h3, ?_⟩
      intro w hw
      rw [heq] at hw
      cases hw

lemma frameStep_avoids {fn : String} (s : ServerState) (it : Iter)
    (h : avoids fn s) : avoids fn (frameStep s it) := by
  obtain ⟨h1, h2, h3, h4⟩ := h
  obtain ⟨hu, hr, -, hfn⟩ := frameStep_fields s it
  refine ⟨by rw [hfn]; exact h1, by rw [hr]; exact h2, by rw [hu]; exact h3, ?_⟩
  intro w hw
  obtain ⟨w1, hw1, hfeq⟩ := frameStep_writer_filename s it w hw
  rw [hfeq]
  exact h4 w1 hw1

lemma runOps_avoids {fn : String} (ops : List Op) :
    ∀ s : ServerState, avoids fn s →
      (∀ ts b, Op.start ts b ∈ ops → mkFilename ts ≠ fn) →
      avoids fn (runOps s ops) := by
  induction ops with
  | nil => exact fun s h _ => h
  | cons op ops ih =>
      intro s h hstart
      have hrest : ∀ ts b, Op.start ts b ∈ ops → mkFilename ts ≠ fn :=
        fun ts b hm => hstart ts b (List.mem_cons_of_mem _ hm)
      have hstep : avoids fn (applyOp s op) := by
        cases op with
        | start ts b =>
            exact start_record_avoids ts b s h
              (hstart ts b (List.mem_cons_self _ _))
        | stop => exact stop_record_avoids s h
        | iter it => exact frameStep_avoids s it h
      exact ih (applyOp s op) hstep hrest

/-- A list of rationals that is pairwise separated by more than one and
contained in `[lo, hi]` has at most `hi - lo + 1` elements. -/
lemma sep_chain_length (l : List ℚ) :
    ∀ lo hi : ℚ, l.Pairwise (fun x y => x + 1 < y) →
      (∀ t ∈ l, lo ≤ t ∧ t ≤ hi) → lo ≤ hi + 1 →
      (l.length : ℚ) ≤ hi - lo + 1 := by
  induction l with
  | nil =>
      intro lo hi _ _ hlh
      simp only [List.length_nil, Nat.cast_zero]
      linarith
  | cons x xs ih =>
      intro lo hi hpw hmem hlh
      obtain ⟨hx, hxs⟩ := List.pairwise_cons.mp hpw
      obtain ⟨hlox, hxhi⟩ := hmem x (List.mem_cons_self _ _)
      have hxs_mem : ∀ t ∈ xs, x + 1 ≤ t ∧ t ≤ hi := fun t ht =>
        ⟨le_of_lt (hx t ht), (hmem t (List.mem_cons_of_mem _ ht)).2⟩
      have hrec : (xs.length : ℚ) ≤ hi - (x + 1) + 1 :=
        ih (x + 1) hi hxs hxs_mem (by linarith)
      simp only [List.length_cons]
      push_cast
      linarith

lemma stop_record_ret (s : ServerState) : (stop_record s).1 = "녹화 종료" := by
  unfold stop_record
  split <;> rfl

lemma stop_record_writer (s : ServerState) :
    (stop_record s).2.video_writer = none := by
  unfold stop_record
  split
  · rfl
  case _ heq => exact heq

lemma stop_record_uploads_of_none (s : ServerState)
    (h : s.video_writer = none) : (stop_record s).2.uploads = s.uploads := by
  unfold stop_record
  split
  case _ w heq => rw [h] at heq; cases heq
  · rfl

lemma stop_record_uploads_of_some (s : ServerState) (w : VideoWriter)
    (h : s.video_writer = some w) :
    (stop_record s).2.uploads = s.uploads ++
      [{ localPath := s.recording_filename
         remoteKey := "recordings/" ++ s.recording_filename }] := by
  unfold stop_record
  split
  · rfl
  case _ heq => rw [h] at heq; cases heq

lemma recordPart_not_recording (s : ServerState) (fr : Frame)
    (h : s.recording = false) : recordPart s fr = s := by
  unfold recordPart
  split
  · rw [if_neg (by rw [h]; simp)]
  · rfl

lemma frameStep_writer_of_idle (s : ServerState) (it : Iter)
    (h : s.recording = false) : (frameStep s it).video_writer = s.video_writer := by
  rcases it with ⟨fr, t1, t2⟩
  cases fr with
  | none => rfl
  | some f =>
      show (throttlePart (recordPart s f) t1 t2).video_writer = _
      rw [recordPart_not_recording s f h]
      exact (throttlePart_fields s t1 t2).1

/-!
Claim theorems.
-/

/-- C1 (counterexample): calling `start_record` while a session is already
active does not leave the session filename unchanged and does not return an
error: at this concrete input the second start replaces the recording
filename and answers with the normal success acknowledgement. -/
theorem C1_counterexample :
    (start_record "20250101_120001" true
        (start_record "20250101_120000" true initState).2).2.recording_filename ≠
      (start_record "20250101_120000" true initState).2.recording_filename ∧
    (start_record "20250101_120001" true
        (start_record "20250101_120000" true initState).2).1 = "녹화 시작" := by
  exact ⟨by decide, rfl⟩

/-- C1 (amended): calling `start_record` while a session is already active
replaces the recording filename and the video writer with fresh ones and
returns the same success acknowledgement as a normal start; no
`AlreadyRecording` error exists and the current session is not preserved. -/
theorem C1_start_while_active (s : ServerState) (ts : String) (b : Bool)
    (_h : s.recording = true) :
    (start_record ts b s).1 = "녹화 시작" ∧
    (start_record ts b s).2.recording_filename = mkFilename ts ∧
    (start_record ts b s).2.video_writer =
      some { filename := mkFilename ts, opened := b, frames := [] } ∧
    (start_record ts b s).2.recording = true :=
  ⟨rfl, rfl, rfl, rfl⟩

/-- C1 witness: the amended statement applied to a concrete active state. -/
theorem C1_witness :
    ((start_record "20250101_120000" true initState).2.recording = true) ∧
    ((start_record "20250101_120001" true
        (start_record "20250101_120000" true initState).2).1 = "녹화 시작" ∧
      (start_record "20250101_120001" true
          (start_record "20250101_120000" true initState).2).2.recording_filename =
        mkFilename "20250101_120001" ∧
      (start_record "20250101_120001" true
          (start_record "20250101_120000" true initState).2).2.video_writer =
        some { filename := mkFilename "20250101_120001", opened := true,
               frames := [] } ∧
      (start_record "20250101_120001" true
          (start_record "20250101_120000" true initState).2).2.recording = true) :=
  ⟨rfl, C1_start_while_active (start_record "20250101_120000" true initState).2
    "20250101_120001" true rfl⟩

/-- C2: over any run of the frame-ingestion loop (window hardcoded to one
second, line 99), the detection tasks launched during any interval
`[a, a + T]` number at most `⌈T⌉ + 1`; the admission stamp is written in
the same loop iteration as the admission decision (by construction of
`throttlePart`, lines 99-101). -/
theorem C2_detection_rate_bound (s : ServerState) (l : List Iter)
    (hiter : ∀ it ∈ l, it.t1 ≤ it.t2) (hdet : s.detections = [])
    (a T : ℚ) (hT : 0 ≤ T) :
    (((runLoop s l).detections).filter
        (fun t => decide (a ≤ t) && decide (t ≤ a + T))).length ≤
      (⌈T⌉).toNat + 1 := by
  obtain ⟨new, heq, -, hpw⟩ := runLoop_detections l s hiter
  rw [heq, hdet, List.nil_append]
  have hpwf : (new.filter
      (fun t => decide (a ≤ t) && decide (t ≤ a + T))).Pairwise
      (fun x y => x + 1 < y) := hpw.filter _
  have hmem : ∀ t ∈ new.filter
      (fun t => decide (a ≤ t) && decide (t ≤ a + T)), a ≤ t ∧ t ≤ a + T := by
    intro t ht
    have hmf := List.of_mem_filter ht
    simp only [Bool.and_eq_true, decide_eq_true_eq] at hmf
    exact hmf
  have hlen : (((new.filter
      (fun t => decide (a ≤ t) && decide (t ≤ a + T))).length : ℚ)) ≤
      (a + T) - a + 1 :=
    sep_chain_length _ a (a + T) hpwf hmem (by linarith)
  have hceilq : T ≤ (⌈T⌉ : ℚ) := Int.le_ceil T
  have hlen2 : (((new.filter
      (fun t => decide (a ≤ t) && decide (t ≤ a + T))).length : ℚ)) ≤
      (⌈T⌉ : ℚ) + 1 := by linarith
  have hceil : (0 : ℤ) ≤ ⌈T⌉ := Int.ceil_nonneg hT
  have hfin : (((new.filter
      (fun t => decide (a ≤ t) && decide (t ≤ a + T))).length : ℤ)) ≤
      ⌈T⌉ + 1 := by exact_mod_cast hlen2
  rw [← Int.toNat_of_nonneg hceil] at hfin
  exact_mod_cast hfin

/-- C2 witness: the bound applied to a concrete three-iteration run. -/
theorem C2_witness :
    (0 : ℚ) ≤ 5 ∧
    (((runLoop initState
        [⟨some ⟨[]⟩, 2, 2⟩, ⟨some ⟨[]⟩, 3, 3⟩, ⟨some ⟨[]⟩, 5, 5⟩]).detections).filter
        (fun t => decide ((0:ℚ) ≤ t) && decide (t ≤ 0 + 5))).length ≤
      (⌈(5:ℚ)⌉).toNat + 1 :=
  ⟨by norm_num,
    C2_detection_rate_bound initState
      [⟨some ⟨[]⟩, 2, 2⟩, ⟨some ⟨[]⟩, 3, 3⟩, ⟨some ⟨[]⟩, 5, 5⟩]
      (by decide) rfl 0 5 (by norm_num)⟩

/-- C3: `detect_labels` replaces the stored result wholesale when both the
detection call and the translation call succeed; if either raises, the
stored value is exactly the prior one; and any observable value of the
store is either the prior value or a complete pair whose English label and
Korean label come from the same detection call (the store is written by the
single assignment on line 72, after both calls). -/
theorem C3_detect_labels_atomic (v : Except String VisionResponse)
    (tr : String → Except String String) (latest : Option LabelResult) :
    (∀ resp t, v = Except.ok resp → tr (bestLabel resp) = Except.ok t →
       detect_labels v tr latest =
         some { label_en := bestLabel resp, label_ko := t }) ∧
    (∀ e, v = Except.error e → detect_labels v tr latest = latest) ∧
    (∀ resp e, v = Except.ok resp → tr (bestLabel resp) = Except.error e →
       detect_labels v tr latest = latest) ∧
    (detect_labels v tr latest = latest ∨
      ∃ resp t, v = Except.ok resp ∧ tr (bestLabel resp) = Except.ok t ∧
        detect_labels v tr latest =
          some { label_en := bestLabel resp, label_ko := t }) := by
  refine ⟨?_, ?_, ?_, ?_⟩
  · intro resp t hv htr
    subst hv
    simp [detect_labels, htr]
  · intro e hv
    subst hv
    rfl
  · intro resp e hv htr
    subst hv
    simp [detect_labels, htr]
  · cases hv : v with
    | error e => exact Or.inl rfl
    | ok resp =>
        cases htr : tr (bestLabel resp) with
        | error e => exact Or.inl (by simp [detect_labels, htr])
        | ok t =>
            exact Or.inr ⟨resp, t, rfl, htr, by simp [detect_labels, htr]⟩

/-- C3 witness: a successful pair of calls at a concrete input. -/
theorem C3_witness :
    detect_labels (Except.ok ⟨[⟨"dog"⟩], []⟩)
      (fun q => Except.ok (q ++ "!")) none =
      some { label_en := bestLabel ⟨[⟨"dog"⟩], []⟩,
             label_ko := "dog" ++ "!" } :=
  (C3_detect_labels_atomic (Except.ok ⟨[⟨"dog"⟩], []⟩)
      (fun q => Except.ok (q ++ "!")) none).1
    ⟨[⟨"dog"⟩], []⟩ ("dog" ++ "!") rfl rfl

/-- C4 (counterexample): `stop_record` right after `start_record`, with no
frame ever fed, releases a writer whose file contents are empty and still
enqueues an upload task — the source never checks that the resulting local
file is non-empty. -/
theorem C4_counterexample :
    ((stop_record (start_record "20250101_120000" true initState).2).2.released.all
        (fun w => w.frames.isEmpty)) = true ∧
    (stop_record (start_record "20250101_120000" true initState).2).2.uploads ≠
      [] := by
  exact ⟨rfl, by decide⟩

/-- C4 (amended): `stop_record` while a writer is open closes the sink and
unconditionally enqueues exactly one upload task (no emptiness check); the
task's remote key is the recording filename prefixed with `recordings/`,
and the filename produced by `start_record` from a well-formed timestamp
matches `record_<YYYYMMDD_HHMMSS>.mp4`. -/
theorem C4_stop_uploads (s : ServerState) (ts : String) (b : Bool)
    (hts : tsPattern ts = true) :
    (stop_record (start_record ts b s).2).2.uploads =
      s.uploads ++ [{ localPath := mkFilename ts
                      remoteKey := "recordings/" ++ mkFilename ts }] ∧
    (stop_record (start_record ts b s).2).2.released =
      s.released ++ [{ filename := mkFilename ts, opened := b, frames := [] }] ∧
    (stop_record (start_record ts b s).2).2.video_writer = none ∧
    recordFilenamePattern (mkFilename ts) = true :=
  ⟨rfl, rfl, rfl, mkFilename_pattern ts hts⟩

/-- C4 witness: the amended statement at a concrete timestamp. -/
theorem C4_witness :
    tsPattern "20250101_120000" = true ∧
    ((stop_record (start_record "20250101_120000" true initState).2).2.uploads =
        initState.uploads ++
          [{ localPath := mkFilename "20250101_120000"
             remoteKey := "recordings/" ++ mkFilename "20250101_120000" }] ∧
      (stop_record (start_record "20250101_120000" true initState).2).2.released =
        initState.released ++
          [{ filename := mkFilename "20250101_120000", opened := true,
             frames := [] }] ∧
      (stop_record (start_record "20250101_120000" true initState).2).2.video_writer =
        none ∧
      recordFilenamePattern (mkFilename "20250101_120000") = true) :=
  ⟨by decide, C4_stop_uploads initState "20250101_120000" true (by decide)⟩

/-- C5: `stop_record` while idle (no open writer) returns the neutral
acknowledgement and enqueues nothing; two consecutive stops never enqueue
more than the first one did, and a stop on a state with an open writer
enqueues exactly one upload task. -/
theorem C5_stop_idempotent (s : ServerState) (h : s.video_writer = none) :
    (stop_record s).1 = "녹화 종료" ∧
    (stop_record s).2.uploads = s.uploads ∧
    (∀ s2 : ServerState,
      (stop_record (stop_record s2).2).2.uploads = (stop_record s2).2.uploads) ∧
    (∀ s3 : ServerState, ∀ w : VideoWriter, s3.video_writer = some w →
      ((stop_record s3).2.uploads).length = s3.uploads.length + 1) := by
  refine ⟨stop_record_ret s, stop_record_uploads_of_none s h, ?_, ?_⟩
  · intro s2
    exact stop_record_uploads_of_none (stop_record s2).2 (stop_record_writer s2)
  · intro s3 w hw
    rw [stop_record_uploads_of_some s3 w hw]
    simp

/-- C5 witness: the statement at the initial (idle) state. -/
theorem C5_witness :
    (stop_record initState).1 = "녹화 종료" ∧
    (stop_record initState).2.uploads = initState.uploads ∧
    (∀ s2 : ServerState,
      (stop_record (stop_record s2).2).2.uploads = (stop_record s2).2.uploads) ∧
    (∀ s3 : ServerState, ∀ w : VideoWriter, s3.video_writer = some w →
      ((stop_record s3).2.uploads).length = s3.uploads.length + 1) :=
  C5_stop_idempotent initState rfl

/-- C6: running any sequence of ingestion-loop iterations from a state in
which recording is off leaves the video writer, the upload list, the
released list and the recording filename untouched, and recording stays
off: feeding frames while idle is a no-op for the recording state. -/
theorem C6_feed_idle_noop (s : ServerState) (l : List Iter)
    (h : s.recording = false) :
    (runLoop s l).video_writer = s.video_writer ∧
    (runLoop s l).uploads = s.uploads ∧
    (runLoop s l).released = s.released ∧
    (runLoop s l).recording = false ∧
    (runLoop s l).recording_filename = s.recording_filename := by
  induction l generalizing s with
  | nil => exact ⟨rfl, rfl, rfl, h, rfl⟩
  | cons it l ih =>
      rw [runLoop_cons]
      have hrec : (frameStep s it).recording = false := by
        rw [(frameStep_fields s it).2.2.1]
        exact h
      obtain ⟨hw, hu, hr, hrecL, hfn⟩ := ih (frameStep s it) hrec
      obtain ⟨hu2, hr2, -, hfn2⟩ := frameStep_fields s it
      exact ⟨hw.trans (frameStep_writer_of_idle s it h), hu.trans hu2,
        hr.trans hr2, hrecL, hfn.trans hfn2⟩

/-- C6 witness: a concrete idle run with two frames. -/
theorem C6_witness :
    initState.recording = false ∧
    ((runLoop initState [⟨some ⟨[1]⟩, 2, 2⟩, ⟨some ⟨[2]⟩, 4, 4⟩]).video_writer =
        initState.video_writer ∧
      (runLoop initState [⟨some ⟨[1]⟩, 2, 2⟩, ⟨some ⟨[2]⟩, 4, 4⟩]).uploads =
        initState.uploads ∧
      (runLoop initState [⟨some ⟨[1]⟩, 2, 2⟩, ⟨some ⟨[2]⟩, 4, 4⟩]).released =
        initState.released ∧
      (runLoop initState [⟨some ⟨[1]⟩, 2, 2⟩, ⟨some ⟨[2]⟩, 4, 4⟩]).recording =
        false ∧
      (runLoop initState [⟨some ⟨[1]⟩, 2, 2⟩, ⟨some ⟨[2]⟩, 4, 4⟩]).recording_filename =
        initState.recording_filename) :=
  ⟨rfl, C6_feed_idle_noop initState [⟨some ⟨[1]⟩, 2, 2⟩, ⟨some ⟨[2]⟩, 4, 4⟩] rfl⟩

/-- C7: one tick of the distance sampler stores the parsed number on a
successful (200, parseable) read and stores the `None` sentinel on any
raised error or timeout; before any update `GET /distance` answers `N/A`;
and the sentinel is distinct from every numeric reading including `0`. -/
theorem C7_distance_sampler (latest : Option Int) (text : String) (n : Int)
    (hp : parsePyInt text = some n) :
    update_distance_tick latest (ReadOutcome.ok 200 text) = some n ∧
    (∀ l0 : Option Int, update_distance_tick l0 ReadOutcome.exn = none) ∧
    distanceRoute initState.latest_distance = DistVal.na ∧
    (∀ m : Int, distanceRoute (some m) = DistVal.num m ∧
      DistVal.num m ≠ DistVal.na) := by
  refine ⟨?_, fun l0 => rfl, rfl, fun m => ⟨rfl, by simp⟩⟩
  simp [update_distance_tick, hp]

/-- C7 witness: a concrete tick parsing `" 42 "`, plus the concrete
`N/A`-before-update and sentinel facts. -/
theorem C7_witness :
    parsePyInt " 42 " = some 42 ∧
    (update_distance_tick none (ReadOutcome.ok 200 " 42 ") = some 42 ∧
      (∀ l0 : Option Int, update_distance_tick l0 ReadOutcome.exn = none) ∧
      distanceRoute initState.latest_distance = DistVal.na ∧
      (∀ m : Int, distanceRoute (some m) = DistVal.num m ∧
        DistVal.num m ≠ DistVal.na)) :=
  ⟨by decide, C7_distance_sampler none " 42 " 42 (by decide)⟩

/-- C8: the reported English label is the name of the first localized
object annotation when any exist, else the description of the first label
annotation when any exist, else the sentinel unknown label (line 69). -/
theorem C8_bestLabel_tiebreak (r : VisionResponse) :
    (∀ o os, r.localizedObjectAnnotations = o :: os → bestLabel r = o.name) ∧
    (∀ la ls, r.localizedObjectAnnotations = [] →
      r.labelAnnotations = la :: ls → bestLabel r = la.description) ∧
    (r.localizedObjectAnnotations = [] → r.labelAnnotations = [] →
      bestLabel r = "알 수 없음") := by
  refine ⟨?_, ?_, ?_⟩
  · intro o os h1
    simp [bestLabel, h1]
  · intro la ls h1 h2
    simp [bestLabel, h1, h2]
  · intro h1 h2
    simp [bestLabel, h1, h2]

/-- C8 witness: the tie-break at a concrete response with one object
annotation. -/
theorem C8_witness :
    bestLabel ⟨[⟨"cat"⟩], [⟨"animal"⟩]⟩ = "cat" :=
  (C8_bestLabel_tiebreak ⟨[⟨"cat"⟩], [⟨"animal"⟩]⟩).1 ⟨"cat"⟩ [] rfl

/-- C9 (counterexample): `start_record` with a video sink that fails to
open still returns the success acknowledgement and still moves the
controller to the recording state — the source never checks the sink, so
the claimed error return and Idle state do not happen. -/
theorem C9_counterexample :
    (start_record "20250101_120000" false initState).1 = "녹화 시작" ∧
    (start_record "20250101_120000" false initState).2.recording = true :=
  ⟨rfl, rfl⟩

/-- C9 (amended): failure to open the frame source aborts process start
(module-level raise, lines 15-17); `start_record` performs no such check on
the video sink — even when the sink fails to open it sets the controller
to the recording state and returns the success acknowledgement. -/
theorem C9_setup_errors (c : Bool) (hc : c = false) (s : ServerState)
    (ts : String) :
    moduleInit c = Except.error "RTSP stream connection failed" ∧
    (start_record ts false s).1 = "녹화 시작" ∧
    (start_record ts false s).2.recording = true := by
  subst hc
  exact ⟨rfl, rfl, rfl⟩

/-- C9 witness: the amended statement at concrete inputs. -/
theorem C9_witness :
    false = false ∧
    (moduleInit false = Except.error "RTSP stream connection failed" ∧
      (start_record "20250101_120000" false initState).1 = "녹화 시작" ∧
      (start_record "20250101_120000" false initState).2.recording = true) :=
  ⟨rfl, C9_setup_errors false rfl initState "20250101_120000"⟩

/-- C10: invoking `start_record` while a session is active overwrites the
global writer and filename with fresh ones without releasing the previous
sink; as long as no later start reuses the first timestamp, the first
session's file is never released and never submitted for upload by any
subsequent sequence of stops, starts and frame feeds. -/
theorem C10_start_overwrite_leak (ts1 ts2 : String) (hne : ts1 ≠ ts2)
    (ops : List Op)
    (hops : ∀ ts b, Op.start ts b ∈ ops → ts ≠ ts1) :
    (start_record ts2 true (start_record ts1 true initState).2).2.recording_filename =
      mkFilename ts2 ∧
    (start_record ts2 true (start_record ts1 true initState).2).2.video_writer =
      some { filename := mkFilename ts2, opened := true, frames := [] } ∧
    (start_record ts2 true (start_record ts1 true initState).2).2.released = [] ∧
    (∀ w ∈ (runOps (start_record ts2 true
        (start_record ts1 true initState).2).2 ops).released,
      w.filename ≠ mkFilename ts1) ∧
    (∀ u ∈ (runOps (start_record ts2 true
        (start_record ts1 true initState).2).2 ops).uploads,
      u.localPath ≠ mkFilename ts1) := by
  have hfn : mkFilename ts2 ≠ mkFilename ts1 :=
    fun hcon => hne (mkFilename_inj hcon).symm
  have hav : avoids (mkFilename ts1)
      (start_record ts2 true (start_record ts1 true initState).2).2 := by
    refine ⟨hfn, ?_, ?_, ?_⟩
    · intro w hw
      have hrel : (start_record ts2 true
          (start_record ts1 true initState).2).2.released = [] := rfl
      rw [hrel] at hw
      cases hw
    · intro u hu
      have hup : (start_record ts2 true
          (start_record ts1 true initState).2).2.uploads = [] := rfl
      rw [hup] at hu
      cases hu
    · intro w hw
      have hww : (start_record ts2 true
          (start_record ts1 true initState).2).2.video_writer =
          some { filename := mkFilename ts2, opened := true, frames := [] } := rfl
      rw [hww] at hw
      cases hw
      exact hfn
  have hops2 : ∀ ts b, Op.start ts b ∈ ops → mkFilename ts ≠ mkFilename ts1 :=
    fun ts b hm hcon => hops ts b hm (mkFilename_inj hcon)
  obtain ⟨-, hrel, hup, -⟩ := runOps_avoids ops _ hav hops2
  exact ⟨rfl, rfl, rfl, hrel, hup⟩

/-- C10 witness: two starts in the same run followed by a stop — the stop
uploads only the second session's file. -/
theorem C10_witness :
    ("20250101_120000" : String) ≠ "20250101_120001" ∧
    ((start_record "20250101_120001"
        true (start_record "20250101_120000" true initState).2).2.recording_filename =
      mkFilename "20250101_120001" ∧
    (start_record "20250101_120001" true
        (start_record "20250101_120000" true initState).2).2.video_writer =
      some { filename := mkFilename "20250101_120001", opened := true,
             frames := [] } ∧
    (start_record "20250101_120001" true
        (start_record "20250101_120000" true initState).2).2.released = [] ∧
    (∀ w ∈ (runOps (start_record "20250101_120001" true
        (start_record "20250101_120000" true initState).2).2 [Op.stop]).released,
      w.filename ≠ mkFilename "20250101_120000") ∧
    (∀ u ∈ (runOps (start_record "20250101_120001" true
        (start_record "20250101_120000" true initState).2).2 [Op.stop]).uploads,
      u.localPath ≠ mkFilename "20250101_120000")) :=
  ⟨by decide,
    C10_start_overwrite_leak "20250101_120000" "20250101_120001" (by decide)
      [Op.stop] (by intro ts b hm; simp at hm)⟩
